import Mathlib

/-!
Verification of the shaderc-vkrunner-mcp server against its design spec.

The development shallowly embeds `compile_run_shaders` from `src/main.rs`:
the request data model, the shader_test script serializer, the glslc
compile loop, the vkrunner invocation and the image conversion step.
External effects (the filesystem, the glslc and vkrunner subprocesses,
PPM decoding and PNG encoding) are modelled as an explicit environment
record; the function returns an effect trace recording which compile
units were attempted, the script text produced (if any), the argv the
execution engine was spawned with (if reached) and the final
`Result<CallToolResult, McpError>` (`Except` here, with the `McpError`
description string as the error).  Writes to the script file are modelled
as pure string accumulation (I/O failure while writing is outside the
claims checked here).
-/

/-- Model of Rust's `str::starts_with` (byte/char prefix test). -/
def strStartsWith (s pre : String) : Bool :=
  pre.data.isPrefixOf s.data

/-- Model of Rust's `str::ends_with` (byte/char suffix test). -/
def strEndsWith (s suf : String) : Bool :=
  suf.data.isSuffixOf s.data

/-- The scratch-root normalization applied to `tmp_output_path` of a
compile request (main.rs lines 586-590) and to every pass's referenced
spvasm path (e.g. lines 709-713): a path already rooted at `/tmp` is
passed through, anything else is rewritten under `/tmp/`. -/
def normalizePath (p : String) : String :=
  if strStartsWith p "/tmp" then p else "/tmp/" ++ p

/-- Concatenation of a list of strings, in order (the sequential
`write!`/`writeln!` calls of the serializer). -/
def strConcat : List String → String
  | [] => ""
  | s :: ss => s ++ strConcat ss

/-- `ShaderStage` from main.rs. -/
inductive ShaderStage where
  | vert
  | frag
  | tesc
  | tese
  | geom
  | comp

/-- The `-fshader-stage=` flag value chosen for a stage
(main.rs lines 577-584). -/
def stage_flag : ShaderStage → String
  | .vert => "vert"
  | .frag => "frag"
  | .tesc => "tesc"
  | .tese => "tese"
  | .geom => "geom"
  | .comp => "comp"

/-- `CompileRequest` from main.rs. -/
structure CompileRequest where
  stage : ShaderStage
  source : String
  tmp_output_path : String

/-- `ShaderRunnerRequire` from main.rs. -/
inductive ShaderRunnerRequire where
  | cooperativeMatrix (m n : Nat) (component_type : String)
  | depthStencil (format : String)
  | framebuffer (format : String)
  | shaderFloat64
  | geometryShader
  | wideLines
  | logicOp
  | subgroupSize (size : Nat)
  | fragmentStoresAndAtomics
  | bufferDeviceAddress

/-- The one `[require]` line emitted for a requirement
(main.rs lines 653-693). -/
def requireLine : ShaderRunnerRequire → String
  | .cooperativeMatrix m n ct =>
      "cooperative_matrix m=" ++ toString m ++ " n=" ++ toString n ++ " c=" ++ ct
  | .depthStencil format => "depthstencil " ++ format
  | .framebuffer format => "framebuffer " ++ format
  | .shaderFloat64 => "shaderFloat64"
  | .geometryShader => "geometryShader"
  | .wideLines => "wideLines"
  | .logicOp => "logicOp"
  | .subgroupSize size => "subgroup_size " ++ toString size
  | .fragmentStoresAndAtomics => "fragmentStoresAndAtomics"
  | .bufferDeviceAddress => "bufferDeviceAddress"

/-- The body of the requirement loop: one `writeln!` per requirement,
in input order (main.rs lines 652-694). -/
def requireLines : List ShaderRunnerRequire → String
  | [] => ""
  | r :: rs => requireLine r ++ "\n" ++ requireLines rs

/-- The whole `[require]` block (main.rs lines 648-698): nothing at all
when the requirements are absent or empty, otherwise the header line,
one line per requirement, and a terminating blank line. -/
def requireSection (reqs : Option (List ShaderRunnerRequire)) : String :=
  match reqs with
  | none => ""
  | some rs => if rs.isEmpty then "" else "[require]\n" ++ requireLines rs ++ "\n"

/-- `ShaderRunnerPass` from main.rs. -/
inductive ShaderRunnerPass where
  | vertPassthrough
  | vertSpirv (vert_spvasm_path : String)
  | fragSpirv (frag_spvasm_path : String)
  | compSpirv (comp_spvasm_path : String)
  | geomSpirv (geom_spvasm_path : String)
  | tescSpirv (tesc_spvasm_path : String)
  | teseSpirv (tese_spvasm_path : String)

/-- The section text of one pass (main.rs lines 700-870): the section
header `writeln!`, then for the spirv variants the referenced artifact's
contents read from the (normalized) path and written with one `writeln!`,
then the blank separator `writeln!` that follows the `match`.  `fs` is
the filesystem: `none` models the `File::open` failure, whose
`McpError` description is the error value. -/
def passText (fs : String → Option String) (p : ShaderRunnerPass) : Except String String :=
  match p with
  | .vertPassthrough => .ok ("[vertex shader passthrough]\n" ++ "\n")
  | .vertSpirv path =>
    match fs (normalizePath path) with
    | none => .error ("Failed to open vertex shader SPIR-V file at " ++ normalizePath path)
    | some spvasm => .ok ("[vertex shader spirv]\n" ++ spvasm ++ "\n" ++ "\n")
  | .fragSpirv path =>
    match fs (normalizePath path) with
    | none => .error ("Failed to open fragment shader SPIR-V file at " ++ normalizePath path)
    | some spvasm => .ok ("[fragment shader spirv]\n" ++ spvasm ++ "\n" ++ "\n")
  | .compSpirv path =>
    match fs (normalizePath path) with
    | none => .error ("Failed to open compute shader SPIR-V file at " ++ normalizePath path)
    | some spvasm => .ok ("[compute shader spirv]\n" ++ spvasm ++ "\n" ++ "\n")
  | .geomSpirv path =>
    match fs (normalizePath path) with
    | none => .error ("Failed to open geometry shader SPIR-V file at " ++ normalizePath path)
    | some spvasm => .ok ("[geometry shader spirv]\n" ++ spvasm ++ "\n" ++ "\n")
  | .tescSpirv path =>
    match fs (normalizePath path) with
    | none =>
      .error ("Failed to open tessellation control shader SPIR-V file at " ++ normalizePath path)
    | some spvasm => .ok ("[tessellation control shader spirv]\n" ++ spvasm ++ "\n" ++ "\n")
  | .teseSpirv path =>
    match fs (normalizePath path) with
    | none =>
      .error ("Failed to open tessellation evaluation shader SPIR-V file at " ++ normalizePath path)
    | some spvasm => .ok ("[tessellation evaluation shader spirv]\n" ++ spvasm ++ "\n" ++ "\n")

/-- The pass loop of the serializer (main.rs lines 700-870): sections in
input order, aborting on the first unreadable artifact. -/
def serializePasses (fs : String → Option String) : List ShaderRunnerPass → Except String String
  | [] => .ok ""
  | p :: ps =>
    match passText fs p with
    | .error e => .error e
    | .ok t =>
      match serializePasses fs ps with
      | .error e => .error e
      | .ok rest => .ok (t ++ rest)

/-- View of a pass: the path it references, if any (spec: "passthrough
(no file)" vs the six artifact-referencing variants). -/
def passPath : ShaderRunnerPass → Option String
  | .vertPassthrough => none
  | .vertSpirv path => some path
  | .fragSpirv path => some path
  | .compSpirv path => some path
  | .geomSpirv path => some path
  | .tescSpirv path => some path
  | .teseSpirv path => some path

/-- View of a pass: its section header line. -/
def passHeader : ShaderRunnerPass → String
  | .vertPassthrough => "[vertex shader passthrough]"
  | .vertSpirv _ => "[vertex shader spirv]"
  | .fragSpirv _ => "[fragment shader spirv]"
  | .compSpirv _ => "[compute shader spirv]"
  | .geomSpirv _ => "[geometry shader spirv]"
  | .tescSpirv _ => "[tessellation control shader spirv]"
  | .teseSpirv _ => "[tessellation evaluation shader spirv]"

/-- `ShaderRunnerVertexData` from main.rs.  The f32 coordinates are
modelled as `Float`. -/
inductive ShaderRunnerVertexData where
  | attributeFormat (location : Nat) (format : String)
  | vec2 (x y : Float)
  | vec3 (x y z : Float)
  | vec4 (x y z w : Float)
  | rgb (r g b : Nat)
  | hex (value : String)
  | genericComponents (components : List String)

/-- The text written for one vertex-data record (main.rs lines 875-904):
an `AttributeFormat` is `location/format` on its own line; every data
record is its space-joined components followed by the `writeln!` that
closes the line (`GenericComponents` writes each component with a
trailing space). -/
def vertexDatumText : ShaderRunnerVertexData → String
  | .attributeFormat location format => toString location ++ "/" ++ format ++ "\n"
  | .vec2 x y => toString x ++ " " ++ toString y ++ "\n"
  | .vec3 x y z => toString x ++ " " ++ toString y ++ " " ++ toString z ++ "\n"
  | .vec4 x y z w =>
      toString x ++ " " ++ toString y ++ " " ++ toString z ++ " " ++ toString w ++ "\n"
  | .rgb r g b => toString r ++ " " ++ toString g ++ " " ++ toString b ++ "\n"
  | .hex value => value ++ "\n"
  | .genericComponents components => strConcat (components.map (fun c => c ++ " ")) ++ "\n"

/-- Loop over the vertex-data records, in input order. -/
def vertexDataLines : List ShaderRunnerVertexData → String
  | [] => ""
  | d :: ds => vertexDatumText d ++ vertexDataLines ds

/-- The `[vertex data]` block (main.rs lines 872-907): present whenever
the field is `Some` (even when the list is empty), absent otherwise. -/
def vertexSection (vd : Option (List ShaderRunnerVertexData)) : String :=
  match vd with
  | none => ""
  | some ds => "[vertex data]\n" ++ vertexDataLines ds ++ "\n"

/-- `ShaderRunnerTest` from main.rs.  u32/u8 fields are `Nat`, f32
fields are `Float`, `Vec<u8>` payloads are `List Nat`. -/
inductive ShaderRunnerTest where
  | fragmentEntrypoint (name : String)
  | vertexEntrypoint (name : String)
  | computeEntrypoint (name : String)
  | geometryEntrypoint (name : String)
  | drawRect (x y width height : Float)
  | drawArrays (primitive_type : String) (first count : Nat)
  | drawArraysIndexed (primitive_type : String) (first count : Nat)
  | ssbo (binding : Nat) (size : Option Nat) (data : Option (List Nat))
      (descriptor_set : Option Nat)
  | ssboSubData (binding : Nat) (data_type : String) (offset : Nat)
      (values : List String) (descriptor_set : Option Nat)
  | ubo (binding : Nat) (data : List Nat) (descriptor_set : Option Nat)
  | uboSubData (binding : Nat) (data_type : String) (offset : Nat)
      (values : List String) (descriptor_set : Option Nat)
  | bufferLayout (buffer_type layout_type : String)
  | push (data_type : String) (offset : Nat) (values : List String)
  | pushLayout (layout_type : String)
  | compute (x y z : Nat)
  | probe (probe_type format : String) (args : List String)
  | relativeProbe (probe_type format : String) (args : List String)
  | tolerance (values : List Float)
  | clear
  | depthTestEnable (enable : Bool)
  | depthWriteEnable (enable : Bool)
  | depthCompareOp (op : String)
  | stencilTestEnable (enable : Bool)
  | frontFace (mode : String)
  | stencilOp (face op_name value : String)
  | stencilReference (face : String) (value : Nat)
  | stencilCompareOp (face op : String)
  | colorWriteMask (mask : String)
  | logicOpEnable (enable : Bool)
  | logicOp (op : String)
  | cullMode (mode : String)
  | lineWidth (width : Float)
  | require (feature : String) (parameters : List String)

/-- The `set_prefix` local of the SSBO/UBO arms (e.g. main.rs
lines 962-966): `"{set}:"` when a descriptor set was supplied, the
empty string otherwise. -/
def setPrefix : Option Nat → String
  | some set => toString set ++ ":"
  | none => ""

/-- The ` {value}` tail written by the per-value `write!` loops of the
subdata/push/probe/tolerance/require arms. -/
def valuesTail : List String → String
  | [] => ""
  | v :: vs => " " ++ v ++ valuesTail vs

/-- The ` {value}` tail for f32 value lists (the `Tolerance` arm). -/
def valuesTailF : List Float → String
  | [] => ""
  | v :: vs => " " ++ toString v ++ valuesTailF vs

/-- The lines written for one test operation (main.rs lines 911-1145),
one list element per `writeln!`-terminated line.  Every arm emits
exactly one line except the `SSBO` arm, which emits one line when
`size` is present, one line when `size` is absent but `data` is
present, and nothing when both are absent (lines 968-974). -/
def testOpLines : ShaderRunnerTest → List String
  | .fragmentEntrypoint name => ["fragment entrypoint " ++ name]
  | .vertexEntrypoint name => ["vertex entrypoint " ++ name]
  | .computeEntrypoint name => ["compute entrypoint " ++ name]
  | .geometryEntrypoint name => ["geometry entrypoint " ++ name]
  | .drawRect x y width height =>
      ["draw rect " ++ toString x ++ " " ++ toString y ++ " " ++ toString width ++ " "
        ++ toString height]
  | .drawArrays pt first count =>
      ["draw arrays " ++ pt ++ " " ++ toString first ++ " " ++ toString count]
  | .drawArraysIndexed pt first count =>
      ["draw arrays indexed " ++ pt ++ " " ++ toString first ++ " " ++ toString count]
  | .ssbo binding size data descriptor_set =>
      match size with
      | some s => ["ssbo " ++ setPrefix descriptor_set ++ toString binding ++ " " ++ toString s]
      | none =>
        match data with
        | some _ => ["ssbo " ++ setPrefix descriptor_set ++ toString binding ++ " data"]
        | none => []
  | .ssboSubData binding data_type offset values descriptor_set =>
      ["ssbo " ++ setPrefix descriptor_set ++ toString binding ++ " subdata " ++ data_type
        ++ " " ++ toString offset ++ valuesTail values]
  | .ubo binding _ descriptor_set =>
      ["ubo " ++ setPrefix descriptor_set ++ toString binding ++ " data"]
  | .uboSubData binding data_type offset values descriptor_set =>
      ["ubo " ++ setPrefix descriptor_set ++ toString binding ++ " subdata " ++ data_type
        ++ " " ++ toString offset ++ valuesTail values]
  | .bufferLayout buffer_type layout_type => [buffer_type ++ " layout " ++ layout_type]
  | .push data_type offset values =>
      ["push " ++ data_type ++ " " ++ toString offset ++ valuesTail values]
  | .pushLayout layout_type => ["push layout " ++ layout_type]
  | .compute x y z => ["compute " ++ toString x ++ " " ++ toString y ++ " " ++ toString z]
  | .probe probe_type format args => ["probe " ++ probe_type ++ " " ++ format ++ valuesTail args]
  | .relativeProbe probe_type format args =>
      ["relative probe " ++ probe_type ++ " " ++ format ++ valuesTail args]
  | .tolerance values => ["tolerance" ++ valuesTailF values]
  | .clear => ["clear"]
  | .depthTestEnable enable => ["depthTestEnable " ++ toString enable]
  | .depthWriteEnable enable => ["depthWriteEnable " ++ toString enable]
  | .depthCompareOp op => ["depthCompareOp " ++ op]
  | .stencilTestEnable enable => ["stencilTestEnable " ++ toString enable]
  | .frontFace mode => ["frontFace " ++ mode]
  | .stencilOp face op_name value => [face ++ "." ++ op_name ++ " " ++ value]
  | .stencilReference face value => [face ++ ".reference " ++ toString value]
  | .stencilCompareOp face op => [face ++ ".compareOp " ++ op]
  | .colorWriteMask mask => ["colorWriteMask " ++ mask]
  | .logicOpEnable enable => ["logicOpEnable " ++ toString enable]
  | .logicOp op => ["logicOp " ++ op]
  | .cullMode mode => ["cullMode " ++ mode]
  | .lineWidth width => ["lineWidth " ++ toString width]
  | .require feature parameters => ["require " ++ feature ++ valuesTail parameters]

/-- The `[test]` loop (main.rs lines 911-1146): per-operation lines
appended in input order. -/
def testLinesLoop : List ShaderRunnerTest → List String
  | [] => []
  | t :: ts => testOpLines t ++ testLinesLoop ts

/-- Renders a line list the way the serializer wrote it: each line
followed by its terminator. -/
def linesText : List String → String
  | [] => ""
  | l :: ls => l ++ "\n" ++ linesText ls

/-- `CompileRunShadersRequest` from main.rs. -/
structure CompileRunShadersRequest where
  requests : List CompileRequest
  requirements : Option (List ShaderRunnerRequire)
  passes : List ShaderRunnerPass
  vertex_data : Option (List ShaderRunnerVertexData)
  tests : List ShaderRunnerTest
  output_path : Option String

/-- The full script written to `/tmp/vkrunner_test.shader_test`
(main.rs lines 645-1148): requirements block, pass sections, vertex
data block, then the mandatory `[test]` section. -/
def serializeScript (fs : String → Option String) (request : CompileRunShadersRequest) :
    Except String String :=
  match serializePasses fs request.passes with
  | .error e => .error e
  | .ok pt =>
    .ok (requireSection request.requirements ++ pt ++ vertexSection request.vertex_data
      ++ "[test]\n" ++ linesText (testLinesLoop request.tests))

/-- Captured output of one external process (std::process::Output):
exit-status success flag plus both streams. -/
structure CompileOutput where
  success : Bool
  stdout : String
  stderr : String

/-- The environment of external effects that `compile_run_shaders`
interacts with.  `runGlslc` is handed the already-normalized compile
request and returns the glslc `Output`, or an error string standing for
whichever spawn/stdin/wait/mkdir `McpError` occurred before an exit
status was available.  `fs` is the filesystem used to read compiled
spvasm artifacts.  `runVkrunner` receives the argv the engine is
spawned with.  The remaining fields model the image step: whether the
scratch PPM exists, the PPM decode result (error value = the displayed
`ImageError`), whether the requested output path has a non-empty parent
directory, and the outcomes of creating that directory and of saving
the converted image. -/
structure Env where
  runGlslc : CompileRequest → Except String CompileOutput
  fs : String → Option String
  runVkrunner : List String → Except String CompileOutput
  ppmExists : Bool
  decodePpm : Except String Unit
  parentNonempty : String → Bool
  mkdirOut : Except String Unit
  saveImage : Except String Unit

/-- The fixed script path (main.rs line 645). -/
def shader_test_path : String := "/tmp/vkrunner_test.shader_test"

/-- The fixed scratch raster path (main.rs line 1150). -/
def tmp_image_path : String := "/tmp/vkrunner_output.ppm"

/-- Normalization applied to a compile request before glslc is spawned
(main.rs lines 586-590). -/
def normalizeRequest (r : CompileRequest) : CompileRequest :=
  { r with tmp_output_path := normalizePath r.tmp_output_path }

/-- Outcome of the compile loop over the requests. -/
inductive CompileOutcome where
  | allOk
  | failed (stdout stderr : String)
  | spawnErr (msg : String)

/-- The per-request glslc loop (main.rs lines 576-643).  Returns the
list of requests for which a compilation was actually attempted
together with the outcome: `failed` carries the two captured streams of
the first non-zero exit (the loop returns early, skipping the remaining
requests), `spawnErr` the `McpError` of a spawn/IO failure. -/
def compileLoop (run : CompileRequest → Except String CompileOutput) :
    List CompileRequest → List CompileRequest × CompileOutcome
  | [] => ([], .allOk)
  | r :: rs =>
    match run (normalizeRequest r) with
    | .error e => ([r], .spawnErr e)
    | .ok o =>
      if o.success then
        let t := compileLoop run rs
        (r :: t.1, t.2)
      else
        ([r], .failed o.stdout o.stderr)

/-- The image-handling step (main.rs lines 1188-1219): the note it
appends to the result message, or the `McpError` it aborts with.  Runs
only when an output path was requested; when vkrunner succeeded and the
scratch PPM exists it decodes, creates the output's parent directory if
non-empty, and saves; a decode failure degrades to a note while a
mkdir or save failure is a hard error. -/
def imageNote (env : Env) (vk : CompileOutput) (outPath : Option String) :
    Except String String :=
  match outPath with
  | none => .ok ""
  | some op =>
    if vk.success && env.ppmExists then
      match env.decodePpm with
      | .ok _ =>
        match (if env.parentNonempty op then env.mkdirOut else .ok ()) with
        | .error _ => .error "Failed to create output directory"
        | .ok _ =>
          match env.saveImage with
          | .error _ => .error "Failed to save output image"
          | .ok _ => .ok ("Image saved to: " ++ op ++ "\n")
      | .error e => .ok ("Failed to convert output image: " ++ e ++ "\n")
    else if vk.success then .ok "No output image was generated by VkRunner.\n"
    else .ok ""

/-- Effect trace of one `compile_run_shaders` call: the compile units
glslc was spawned for, the script text written to
`/tmp/vkrunner_test.shader_test` (none when the call never got that
far), the argv vkrunner was spawned with (none when never spawned), and
the returned `Result` (`error` = the description of the `McpError`,
`ok` = the text of the successful `CallToolResult`). -/
structure RunTrace where
  compiled : List CompileRequest
  script : Option String
  vkArgs : Option (List String)
  result : Except String String

/-- Shallow embedding of the `compile_run_shaders` tool handler
(main.rs lines 563-1228). -/
def compile_run_shaders (env : Env) (request : CompileRunShadersRequest) : RunTrace :=
  let c := compileLoop env.runGlslc request.requests
  match c.2 with
  | .spawnErr e => ⟨c.1, none, none, .error e⟩
  | .failed so se =>
    ⟨c.1, none, none,
      .ok ("Shader compilation failed:\n\nStdout:\n" ++ so ++ "\n\nStderr:\n" ++ se)⟩
  | .allOk =>
    match serializeScript env.fs request with
    | .error e => ⟨c.1, none, none, .error e⟩
    | .ok script =>
      let args :=
        if request.output_path.isSome then [shader_test_path, "--image", tmp_image_path]
        else [shader_test_path]
      match env.runVkrunner args with
      | .error _ => ⟨c.1, some script, some args, .error "Failed to run vkrunner"⟩
      | .ok vk =>
        let base :=
          if vk.success then
            "VkRunner execution successful.\n\nOutput:\n" ++ vk.stdout ++ "\n\n"
          else
            "VkRunner execution failed.\n\nOutput:\n" ++ vk.stdout ++ "\n\nError:\n"
              ++ vk.stderr ++ "\n\n"
        match imageNote env vk request.output_path with
        | .error e => ⟨c.1, some script, some args, .error e⟩
        | .ok note =>
          ⟨c.1, some script, some args,
            .ok (base ++ note ++ "\nShader Test File Contents:\n" ++ script)⟩

/-- `TokenReplacement` from vkrunner/source.rs. -/
structure TokenReplacement where
  token : String
  replacement : String

/-- The data of a `Source` (vkrunner/source.rs): a file name or an
in-memory string. -/
inductive SourceData where
  | file (filename : String)
  | string (source : String)

/-- `Source` from vkrunner/source.rs: the read origin plus the ordered
token replacements. -/
structure Source where
  token_replacements : List TokenReplacement
  data : SourceData

/-- `Source::add_token_replacement` (vkrunner/source.rs lines 80-86):
appends one replacement to the ordered list. -/
def add_token_replacement (s : Source) (token replacement : String) : Source :=
  { s with token_replacements :=
      s.token_replacements ++ [TokenReplacement.mk token replacement] }

/-- Failure of the token-substitution preprocessor: the per-line pass
bound was exceeded (cyclic or divergent replacement set). -/
inductive SubstitutionFailure where
  | cyclic

/-- First replacement (in declaration order) whose token occurs at the
head of the character list; yields its replacement text and the rest of
the line after the token. -/
def matchAt (reps : List TokenReplacement) (l : List Char) : Option (String × List Char) :=
  match reps with
  | [] => none
  | r :: rs =>
    if r.token.data.isPrefixOf l then some (r.replacement, l.drop r.token.length)
    else matchAt rs l

/-- One substitution pass over a line: scans left to right, and at the
first position where some replacement's token matches (first-declared
wins), substitutes its replacement text.  `none` when the line holds no
matching token. -/
def substPass (reps : List TokenReplacement) : List Char → Option (List Char)
  | [] => none
  | c :: cs =>
    match matchAt reps (c :: cs) with
    | some (rep, rest) => some (rep.data ++ rest)
    | none => (substPass reps cs).map (fun l => c :: l)

/-- Modelled from the spec: the bounded substitution loop of the script
reader.  The reader that applies a `Source`'s token replacements while
reading lines is not among the sources here (only
`Source::add_token_replacement` and its doc comment are), so the loop
follows spec section 4.5: substitute and re-scan until no token
matches, bounded by a fixed maximum number of passes per line, and
exceeding the bound is a `SubstitutionFailure` rather than an infinite
loop. -/
def substLoop (reps : List TokenReplacement) :
    Nat → List Char → Except SubstitutionFailure (List Char)
  | fuel, l =>
    match substPass reps l with
    | none => .ok l
    | some next =>
      match fuel with
      | 0 => .error .cyclic
      | f + 1 => substLoop reps f next

/-- Modelled from the spec: the fixed maximum number of substitution
passes per line (spec section 4.5 fixes no particular value). -/
def maxPasses : Nat := 1000

/-- Modelled from the spec: reading one line through the
token-substitution preprocessor (spec sections 3 and 4.5). -/
def readLine (reps : List TokenReplacement) (line : String) :
    Except SubstitutionFailure String :=
  (substLoop reps maxPasses line.data).map String.mk

theorem isPrefixOf_append_left : ∀ (m l : List Char), m.isPrefixOf (m ++ l) = true := by
  intro m l
  induction m with
  | nil => simp
  | cons a as ih => simp [List.isPrefixOf, ih]

theorem startsWith_tmp_slash (p : String) : strStartsWith ("/tmp/" ++ p) "/tmp" = true := by
  show "/tmp".data.isPrefixOf ("/tmp/" ++ p).data = true
  have h : ("/tmp/" ++ p).data = "/tmp".data ++ ('/' :: p.data) := rfl
  rw [h]
  exact isPrefixOf_append_left _ _

/-- C8: destination-path normalization passes a path already rooted at
the scratch root `/tmp` through unchanged, rewrites every other path
under `/tmp/`, and is idempotent. -/
theorem normalizePath_correct (p : String) :
    (strStartsWith p "/tmp" = true → normalizePath p = p) ∧
    (strStartsWith p "/tmp" = false → normalizePath p = "/tmp/" ++ p) ∧
    normalizePath (normalizePath p) = normalizePath p := by
  refine ⟨fun h => by simp [normalizePath, h], fun h => by simp [normalizePath, h], ?_⟩
  by_cases h : strStartsWith p "/tmp"
  · simp [normalizePath, h]
  · simp only [normalizePath, h, Bool.false_eq_true, if_false]
    simp [startsWith_tmp_slash]

theorem normalizePath_correct_witness :
    (strStartsWith "/tmp/a.spvasm" "/tmp" = true ∧
      normalizePath "/tmp/a.spvasm" = "/tmp/a.spvasm") ∧
    (strStartsWith "shader.spvasm" "/tmp" = false ∧
      normalizePath "shader.spvasm" = "/tmp/" ++ "shader.spvasm") :=
  ⟨⟨by decide, (normalizePath_correct "/tmp/a.spvasm").1 (by decide)⟩,
    ⟨by decide, (normalizePath_correct "shader.spvasm").2.1 (by decide)⟩⟩

/-- C4: for the SSBO, SSBOSubData, UBO and UBOSubData operations the
emitted binding token is `set:binding` when a descriptor set was
supplied and the bare binding number when it was not. -/
theorem descriptorSet_binding_token (b sz off set : Nat) (dt : String) (vs : List String)
    (d : List Nat) (dOpt : Option (List Nat)) :
    testOpLines (.ssbo b (some sz) dOpt (some set))
      = ["ssbo " ++ toString set ++ ":" ++ toString b ++ " " ++ toString sz] ∧
    testOpLines (.ssbo b (some sz) dOpt none)
      = ["ssbo " ++ toString b ++ " " ++ toString sz] ∧
    testOpLines (.ssbo b none (some d) (some set))
      = ["ssbo " ++ toString set ++ ":" ++ toString b ++ " data"] ∧
    testOpLines (.ssbo b none (some d) none)
      = ["ssbo " ++ toString b ++ " data"] ∧
    testOpLines (.ssboSubData b dt off vs (some set))
      = ["ssbo " ++ toString set ++ ":" ++ toString b ++ " subdata " ++ dt ++ " "
          ++ toString off ++ valuesTail vs] ∧
    testOpLines (.ssboSubData b dt off vs none)
      = ["ssbo " ++ toString b ++ " subdata " ++ dt ++ " " ++ toString off
          ++ valuesTail vs] ∧
    testOpLines (.ubo b d (some set))
      = ["ubo " ++ toString set ++ ":" ++ toString b ++ " data"] ∧
    testOpLines (.ubo b d none) = ["ubo " ++ toString b ++ " data"] ∧
    testOpLines (.uboSubData b dt off vs (some set))
      = ["ubo " ++ toString set ++ ":" ++ toString b ++ " subdata " ++ dt ++ " "
          ++ toString off ++ valuesTail vs] ∧
    testOpLines (.uboSubData b dt off vs none)
      = ["ubo " ++ toString b ++ " subdata " ++ dt ++ " " ++ toString off
          ++ valuesTail vs] := by
  refine ⟨?_, ?_, ?_, ?_, ?_, ?_, ?_, ?_, ?_, ?_⟩ <;>
    simp [testOpLines, setPrefix, String.append_assoc]

/-- C2 as stated is false: an SSBO operation with neither a size nor a
data payload emits no `[test]` line at all, so a one-operation sequence
can emit zero lines. -/
theorem testLines_count_counterexample :
    testLinesLoop [ShaderRunnerTest.ssbo 0 none none none] = [] ∧
    ¬ (1 ≤ (testLinesLoop [ShaderRunnerTest.ssbo 0 none none none]).length) := by
  decide

/-- C2 amended: the `[test]` loop emits the per-operation lines in input
order; every operation emits at most one line, and exactly one unless
it is an SSBO with both `size` and `data` absent, which emits none. -/
theorem testLines_count_amended :
    (∀ ops : List ShaderRunnerTest, testLinesLoop ops = ops.flatMap testOpLines) ∧
    (∀ op : ShaderRunnerTest, (testOpLines op).length ≤ 1) ∧
    (∀ op : ShaderRunnerTest,
      testOpLines op = [] ↔ ∃ b ds, op = .ssbo b none none ds) := by
  refine ⟨?_, ?_, ?_⟩
  · intro ops
    induction ops with
    | nil => rfl
    | cons t ts ih => simp [testLinesLoop, ih]
  · intro op
    cases op with
    | ssbo b sz d ds =>
      cases sz with
      | some s => simp [testOpLines]
      | none => cases d <;> simp [testOpLines]
    | _ => simp [testOpLines]
  · intro op
    cases op with
    | ssbo b sz d ds =>
      cases sz with
      | some s => simp [testOpLines]
      | none =>
        cases d with
        | some bs => simp [testOpLines]
        | none => simp [testOpLines]
    | _ => simp [testOpLines]

/-- C10 as stated is false: an SSBO carrying a data payload together
with an explicit size emits the `ssbo <binding> <size>` line, which
does not end in the literal word `data`. -/
theorem payload_template_counterexample :
    testOpLines (ShaderRunnerTest.ssbo 0 (some 4) (some [1]) none) = ["ssbo 0 4"] ∧
    strEndsWith "ssbo 0 4" "data" = false := by
  decide

/-- C10 amended: the emitted script text is independent of UBO and SSBO
payload bytes in every case; the emitted line ends in the literal word
`data` for every UBO and for an SSBO whose `size` is absent, while an
SSBO with a `size` emits the size template (still independent of the
payload). -/
theorem payload_independence :
    (∀ b ds (bs1 bs2 : List Nat),
      testOpLines (.ubo b bs1 ds) = testOpLines (.ubo b bs2 ds)) ∧
    (∀ b sz ds (bs1 bs2 : List Nat),
      testOpLines (.ssbo b sz (some bs1) ds) = testOpLines (.ssbo b sz (some bs2) ds)) ∧
    (∀ b ds (bs : List Nat),
      testOpLines (.ubo b bs ds) = ["ubo " ++ setPrefix ds ++ toString b ++ " data"]) ∧
    (∀ b ds (bs : List Nat),
      testOpLines (.ssbo b none (some bs) ds)
        = ["ssbo " ++ setPrefix ds ++ toString b ++ " data"]) := by
  refine ⟨fun b ds bs1 bs2 => rfl, ?_, fun b ds bs => rfl, fun b ds bs => rfl⟩
  intro b sz ds bs1 bs2
  cases sz <;> rfl

theorem requireLines_concat (rs : List ShaderRunnerRequire) :
    requireLines rs = strConcat (rs.map (fun r => requireLine r ++ "\n")) := by
  induction rs with
  | nil => rfl
  | cons r rs ih => simp [requireLines, strConcat, ih]

/-- C3: an absent or empty requirements list contributes no `[require]`
section at all; a non-empty list makes the script start with a
`[require]` section holding exactly one line per requirement in input
order and ending with a blank separator line. -/
theorem requireSection_correct :
    (requireSection none = "" ∧ requireSection (some []) = "") ∧
    (∀ rs : List ShaderRunnerRequire, rs ≠ [] →
      requireSection (some rs)
        = "[require]\n" ++ strConcat (rs.map (fun r => requireLine r ++ "\n")) ++ "\n") ∧
    (∀ (fs : String → Option String) (req : CompileRunShadersRequest)
        (rs : List ShaderRunnerRequire) (s : String),
      req.requirements = some rs → rs ≠ [] → serializeScript fs req = .ok s →
      strStartsWith s "[require]" = true) := by
  refine ⟨⟨rfl, rfl⟩, ?_, ?_⟩
  · intro rs h
    cases rs with
    | nil => exact absurd rfl h
    | cons r rs => simp [requireSection, requireLines_concat]
  · intro fs req rs s h1 h2 h3
    cases hp : serializePasses fs req.passes with
    | error e => simp [serializeScript, hp] at h3
    | ok pt =>
      simp only [serializeScript, hp] at h3
      rw [h1] at h3
      cases rs with
      | nil => exact absurd rfl h2
      | cons r rs =>
        simp only [requireSection, List.isEmpty_cons, if_false, Bool.false_eq_true] at h3
        injection h3 with h3
        subst h3
        show "[require]".data.isPrefixOf _ = true
        simp only [String.data_append, List.append_assoc]
        have e : (['[', 'r', 'e', 'q', 'u', 'i', 'r', 'e', ']', '\n'] : List Char)
            = ['[', 'r', 'e', 'q', 'u', 'i', 'r', 'e', ']'] ++ ['\n'] := rfl
        rw [e, List.append_assoc]
        exact isPrefixOf_append_left _ _

/-- Concrete request exercising the `[require]` block. -/
def c3Req : CompileRunShadersRequest :=
  ⟨[], some [.shaderFloat64], [], none, [.clear], none⟩

theorem requireSection_correct_witness :
    serializeScript (fun _ => none) c3Req = .ok "[require]\nshaderFloat64\n\n[test]\nclear\n" ∧
    strStartsWith "[require]\nshaderFloat64\n\n[test]\nclear\n" "[require]" = true :=
  ⟨rfl,
    requireSection_correct.2.2 (fun _ => none) c3Req [.shaderFloat64]
      "[require]\nshaderFloat64\n\n[test]\nclear\n" rfl (by simp) rfl⟩

/-- C1: when every referenced artifact resolves, the pass serializer
emits exactly one section per pass entry, in input order: a passthrough
pass contributes only its header line (and the blank separator), and
every spirv variant contributes its header followed by exactly the text
of the referenced artifact file. -/
theorem serializePasses_sections (fs : String → Option String) (ps : List ShaderRunnerPass)
    (h : ∀ p ∈ ps, ∀ q, passPath p = some q → (fs (normalizePath q)).isSome = true) :
    serializePasses fs ps = .ok (strConcat (ps.map (fun p =>
      match passPath p with
      | none => passHeader p ++ "\n" ++ "\n"
      | some q => passHeader p ++ "\n" ++ (fs (normalizePath q)).getD "" ++ "\n" ++ "\n"))) := by
  induction ps with
  | nil => rfl
  | cons p ps ih =>
    have hp : ∀ q, passPath p = some q → (fs (normalizePath q)).isSome = true :=
      fun q hq => h p (List.mem_cons_self p ps) q hq
    have hps : ∀ p' ∈ ps, ∀ q, passPath p' = some q → (fs (normalizePath q)).isSome = true :=
      fun p' hm q hq => h p' (List.mem_cons_of_mem p hm) q hq
    have hstep : passText fs p = .ok (match passPath p with
        | none => passHeader p ++ "\n" ++ "\n"
        | some q => passHeader p ++ "\n" ++ (fs (normalizePath q)).getD "" ++ "\n" ++ "\n") := by
      cases p with
      | vertPassthrough => rfl
      | vertSpirv q =>
        have hq := hp q rfl
        cases hfq : fs (normalizePath q) with
        | none => rw [hfq] at hq; simp at hq
        | some c => simp [passText, hfq, passPath, passHeader]
      | fragSpirv q =>
        have hq := hp q rfl
        cases hfq : fs (normalizePath q) with
        | none => rw [hfq] at hq; simp at hq
        | some c => simp [passText, hfq, passPath, passHeader]
      | compSpirv q =>
        have hq := hp q rfl
        cases hfq : fs (normalizePath q) with
        | none => rw [hfq] at hq; simp at hq
        | some c => simp [passText, hfq, passPath, passHeader]
      | geomSpirv q =>
        have hq := hp q rfl
        cases hfq : fs (normalizePath q) with
        | none => rw [hfq] at hq; simp at hq
        | some c => simp [passText, hfq, passPath, passHeader]
      | tescSpirv q =>
        have hq := hp q rfl
        cases hfq : fs (normalizePath q) with
        | none => rw [hfq] at hq; simp at hq
        | some c => simp [passText, hfq, passPath, passHeader]
      | teseSpirv q =>
        have hq := hp q rfl
        cases hfq : fs (normalizePath q) with
        | none => rw [hfq] at hq; simp at hq
        | some c => simp [passText, hfq, passPath, passHeader]
    simp [serializePasses, hstep, ih hps, strConcat]

/-- Filesystem with one compiled fragment artifact, for the C1 witness. -/
def c1Fs : String → Option String :=
  fun p => if p = "/tmp/f.spvasm" then some "FRAG" else none

theorem serializePasses_sections_witness :
    serializePasses c1Fs [ShaderRunnerPass.vertPassthrough, ShaderRunnerPass.fragSpirv "f.spvasm"]
      = .ok "[vertex shader passthrough]\n\n[fragment shader spirv]\nFRAG\n\n" := by
  have h := serializePasses_sections c1Fs
    [ShaderRunnerPass.vertPassthrough, ShaderRunnerPass.fragSpirv "f.spvasm"] ?hyp
  case hyp =>
    intro p hp q hq
    simp only [List.mem_cons, List.not_mem_nil, or_false] at hp
    cases hp with
    | inl h1 => subst h1; simp [passPath] at hq
    | inr h1 => subst h1; simp only [passPath, Option.some.injEq] at hq; subst hq; decide
  exact h.trans (by rfl)

theorem compileLoop_abort (run : CompileRequest → Except String CompileOutput)
    (pre post : List CompileRequest) (bad : CompileRequest) (o : CompileOutput)
    (hpre : ∀ r ∈ pre, ∃ o', run (normalizeRequest r) = .ok o' ∧ o'.success = true)
    (hbad : run (normalizeRequest bad) = .ok o) (hfail : o.success = false) :
    compileLoop run (pre ++ bad :: post) = (pre ++ [bad], .failed o.stdout o.stderr) := by
  induction pre with
  | nil => simp [compileLoop, hbad, hfail]
  | cons r pre ih =>
    obtain ⟨o', hr, hs⟩ := hpre r (List.mem_cons_self r pre)
    have ih2 := ih (fun r' hm => hpre r' (List.mem_cons_of_mem r hm))
    simp [compileLoop, hr, hs, ih2]

/-- C5: when a compile unit's external compilation exits non-zero after
all earlier units succeeded, the whole request aborts: glslc is spawned
for the earlier units and the failing one only (nothing after it), the
returned message reports both captured streams verbatim, no script is
produced and vkrunner is never spawned. -/
theorem compile_abort (env : Env) (req : CompileRunShadersRequest)
    (pre post : List CompileRequest) (bad : CompileRequest) (o : CompileOutput)
    (hreq : req.requests = pre ++ bad :: post)
    (hpre : ∀ r ∈ pre, ∃ o', env.runGlslc (normalizeRequest r) = .ok o' ∧ o'.success = true)
    (hbad : env.runGlslc (normalizeRequest bad) = .ok o)
    (hfail : o.success = false) :
    compile_run_shaders env req =
      ⟨pre ++ [bad], none, none,
        .ok ("Shader compilation failed:\n\nStdout:\n" ++ o.stdout ++ "\n\nStderr:\n"
          ++ o.stderr)⟩ := by
  have hc := compileLoop_abort env.runGlslc pre post bad o hpre hbad hfail
  simp [compile_run_shaders, hreq, hc]

/-- Environment whose compiler always reports a failure, for the C5
witness. -/
def c5Env : Env :=
  ⟨fun _ => .ok ⟨false, "OUT", "ERR"⟩, fun _ => none, fun _ => .ok ⟨true, "", ""⟩,
    false, .ok (), fun _ => false, .ok (), .ok ()⟩

/-- One-unit request whose compilation fails, for the C5 witness. -/
def c5Req : CompileRunShadersRequest :=
  ⟨[⟨.frag, "bad shader source", "f.spvasm"⟩], none, [], none, [], none⟩

theorem compile_abort_witness :
    compile_run_shaders c5Env c5Req =
      ⟨[⟨.frag, "bad shader source", "f.spvasm"⟩], none, none,
        .ok "Shader compilation failed:\n\nStdout:\nOUT\n\nStderr:\nERR"⟩ := by
  have h := compile_abort c5Env c5Req [] [] ⟨.frag, "bad shader source", "f.spvasm"⟩
    ⟨false, "OUT", "ERR"⟩ rfl (fun r hr => absurd hr (List.not_mem_nil r)) rfl rfl
  exact h.trans (by rfl)

/-- C6: when the execution engine is spawned successfully and exits
non-zero, the handler still returns a normal (failing) `CallToolResult`
carrying both captured streams unmodified; only a spawn failure is a
component-level `McpError`. -/
theorem vkrunner_nonzero_exit :
    (∀ (env : Env) (req : CompileRunShadersRequest) (s : String) (out : CompileOutput),
      (compileLoop env.runGlslc req.requests).2 = .allOk →
      serializeScript env.fs req = .ok s →
      env.runVkrunner
        (if req.output_path.isSome then [shader_test_path, "--image", tmp_image_path]
          else [shader_test_path]) = .ok out →
      out.success = false →
      (compile_run_shaders env req).result
        = .ok ("VkRunner execution failed.\n\nOutput:\n" ++ out.stdout ++ "\n\nError:\n"
            ++ out.stderr ++ "\n\n" ++ "\nShader Test File Contents:\n" ++ s)) ∧
    (∀ (env : Env) (req : CompileRunShadersRequest) (s e : String),
      (compileLoop env.runGlslc req.requests).2 = .allOk →
      serializeScript env.fs req = .ok s →
      env.runVkrunner
        (if req.output_path.isSome then [shader_test_path, "--image", tmp_image_path]
          else [shader_test_path]) = .error e →
      (compile_run_shaders env req).result = .error "Failed to run vkrunner") := by
  constructor
  · intro env req s out h1 h2 h3 h4
    cases hop : req.output_path with
    | none =>
      rw [hop] at h3
      simp only [Option.isSome_none, Bool.false_eq_true, if_false] at h3
      simp [compile_run_shaders, h1, h2, h3, h4, hop, imageNote, String.append_assoc]
    | some op =>
      rw [hop] at h3
      simp only [Option.isSome_some, if_true] at h3
      simp [compile_run_shaders, h1, h2, h3, h4, hop, imageNote, String.append_assoc]
  · intro env req s e h1 h2 h3
    cases hop : req.output_path with
    | none =>
      rw [hop] at h3
      simp only [Option.isSome_none, Bool.false_eq_true, if_false] at h3
      simp [compile_run_shaders, h1, h2, h3, hop]
    | some op =>
      rw [hop] at h3
      simp only [Option.isSome_some, if_true] at h3
      simp [compile_run_shaders, h1, h2, h3, hop]

/-- Environment whose execution engine exits non-zero, for the C6
witness. -/
def c6Env : Env :=
  ⟨fun _ => .ok ⟨true, "", ""⟩, fun _ => none, fun _ => .ok ⟨false, "FAIL", "BOOM"⟩,
    false, .ok (), fun _ => false, .ok (), .ok ()⟩

/-- Empty request (no compile units, no passes, no tests), for the C6
witness. -/
def c6Req : CompileRunShadersRequest := ⟨[], none, [], none, [], none⟩

/-- Same request but with an output image requested, for the C6
witness. -/
def c6bReq : CompileRunShadersRequest := ⟨[], none, [], none, [], some "o.png"⟩

theorem vkrunner_nonzero_exit_witness :
    (compile_run_shaders c6Env c6Req).result
      = .ok "VkRunner execution failed.\n\nOutput:\nFAIL\n\nError:\nBOOM\n\n\nShader Test File Contents:\n[test]\n" ∧
    (compile_run_shaders c6Env c6bReq).result
      = .ok "VkRunner execution failed.\n\nOutput:\nFAIL\n\nError:\nBOOM\n\n\nShader Test File Contents:\n[test]\n" := by
  have h1 := vkrunner_nonzero_exit.1 c6Env c6Req "[test]\n" ⟨false, "FAIL", "BOOM"⟩
    rfl rfl rfl rfl
  have h2 := vkrunner_nonzero_exit.1 c6Env c6bReq "[test]\n" ⟨false, "FAIL", "BOOM"⟩
    rfl rfl rfl rfl
  exact ⟨h1.trans (by rfl), h2.trans (by rfl)⟩

/-- Environment where vkrunner succeeds, the scratch PPM exists and
decodes, but saving the converted image fails, for the C7
counterexample. -/
def c7Env : Env :=
  ⟨fun _ => .ok ⟨true, "", ""⟩, fun _ => none, fun _ => .ok ⟨true, "OK", ""⟩,
    true, .ok (), fun _ => false, .ok (), .error "disk full"⟩

/-- Request asking for an output image, for the C7 claims. -/
def c7Req : CompileRunShadersRequest := ⟨[], none, [], none, [], some "out.png"⟩

/-- C7 as stated is false: when re-encoding (saving) the converted
raster fails, the request does not return a successful response — the
handler aborts with the `Failed to save output image` `McpError`. -/
theorem image_save_aborts_counterexample :
    c7Env.saveImage = .error "disk full" ∧
    c7Req.output_path = some "out.png" ∧
    (compile_run_shaders c7Env c7Req).result = .error "Failed to save output image" :=
  ⟨rfl, rfl, rfl⟩

/-- C7 amended: a raster decode failure is non-fatal — the request still
returns a successful response whose image portion degrades to a
conversion-failure note while the execution diagnostics are preserved;
a re-encode (save) failure, by contrast, aborts the request with a
component-level error (whenever creating the output's parent directory,
if one was needed, succeeded — a directory-creation failure aborts with
its own error before the save is attempted). -/
theorem image_failures_amended :
    (∀ (env : Env) (req : CompileRunShadersRequest) (s op : String) (out : CompileOutput)
        (e : String),
      (compileLoop env.runGlslc req.requests).2 = .allOk →
      serializeScript env.fs req = .ok s →
      req.output_path = some op →
      env.runVkrunner [shader_test_path, "--image", tmp_image_path] = .ok out →
      out.success = true →
      env.ppmExists = true →
      env.decodePpm = .error e →
      (compile_run_shaders env req).result
        = .ok ("VkRunner execution successful.\n\nOutput:\n" ++ out.stdout ++ "\n\n"
            ++ "Failed to convert output image: " ++ e ++ "\n"
            ++ "\nShader Test File Contents:\n" ++ s)) ∧
    (∀ (env : Env) (req : CompileRunShadersRequest) (s op : String) (out : CompileOutput)
        (e : String),
      (compileLoop env.runGlslc req.requests).2 = .allOk →
      serializeScript env.fs req = .ok s →
      req.output_path = some op →
      env.runVkrunner [shader_test_path, "--image", tmp_image_path] = .ok out →
      out.success = true →
      env.ppmExists = true →
      env.decodePpm = .ok () →
      env.mkdirOut = .ok () →
      env.saveImage = .error e →
      (compile_run_shaders env req).result = .error "Failed to save output image") := by
  constructor
  · intro env req s op out e h1 h2 h3 h4 h5 h6 h7
    simp [compile_run_shaders, h1, h2, h3, h4, h5, h6, h7, imageNote, String.append_assoc]
    rfl
  · intro env req s op out e h1 h2 h3 h4 h5 h6 h7 h8 h9
    simp [compile_run_shaders, h1, h2, h3, h4, h5, h6, h7, h8, h9, imageNote]

/-- Environment whose PPM decode fails, for the C7 witness. -/
def c7bEnv : Env :=
  ⟨fun _ => .ok ⟨true, "", ""⟩, fun _ => none, fun _ => .ok ⟨true, "OK", ""⟩,
    true, .error "bad ppm", fun _ => false, .ok (), .ok ()⟩

/-- Environment where the output path has a parent directory (modelled
by `parentNonempty` answering true), its creation succeeds, and saving
the converted image fails, for the C7 witness. -/
def c7cEnv : Env :=
  ⟨fun _ => .ok ⟨true, "", ""⟩, fun _ => none, fun _ => .ok ⟨true, "OK", ""⟩,
    true, .ok (), fun _ => true, .ok (), .error "disk full"⟩

/-- Request whose output image path lies inside a directory, for the C7
witness. -/
def c7dReq : CompileRunShadersRequest := ⟨[], none, [], none, [], some "dir/out.png"⟩

theorem image_failures_amended_witness :
    (compile_run_shaders c7bEnv c7Req).result
      = .ok "VkRunner execution successful.\n\nOutput:\nOK\n\nFailed to convert output image: bad ppm\n\nShader Test File Contents:\n[test]\n" ∧
    (compile_run_shaders c7cEnv c7dReq).result = .error "Failed to save output image" := by
  have h1 := image_failures_amended.1 c7bEnv c7Req "[test]\n" "out.png" ⟨true, "OK", ""⟩
    "bad ppm" rfl rfl rfl rfl rfl rfl rfl
  have h2 := image_failures_amended.2 c7cEnv c7dReq "[test]\n" "dir/out.png" ⟨true, "OK", ""⟩
    "disk full" rfl rfl rfl rfl rfl rfl rfl rfl rfl
  exact ⟨h1.trans (by rfl), h2⟩

theorem substPass_cyclic :
    ∀ l : List Char, ('A' ∈ l ∨ 'B' ∈ l) →
      ∃ next, substPass [⟨"A", "B"⟩, ⟨"B", "A"⟩] l = some next ∧
        ('A' ∈ next ∨ 'B' ∈ next) := by
  intro l hl
  induction l with
  | nil => simp at hl
  | cons c cs ih =>
    by_cases hA : c = 'A'
    · subst hA
      refine ⟨'B' :: cs, ?_, Or.inr (List.mem_cons_self _ _)⟩
      simp [substPass, matchAt, List.isPrefixOf]
      rfl
    · by_cases hB : c = 'B'
      · subst hB
        refine ⟨'A' :: cs, ?_, Or.inl (List.mem_cons_self _ _)⟩
        simp [substPass, matchAt, List.isPrefixOf]
        rfl
      · have hA2 : ('A' == c) = false := beq_eq_false_iff_ne.mpr (fun h => hA h.symm)
        have hB2 : ('B' == c) = false := beq_eq_false_iff_ne.mpr (fun h => hB h.symm)
        have hcs : 'A' ∈ cs ∨ 'B' ∈ cs := by
          cases hl with
          | inl h =>
            cases List.mem_cons.mp h with
            | inl h2 => exact absurd h2.symm hA
            | inr h2 => exact Or.inl h2
          | inr h =>
            cases List.mem_cons.mp h with
            | inl h2 => exact absurd h2.symm hB
            | inr h2 => exact Or.inr h2
        obtain ⟨next, hnext, hmem⟩ := ih hcs
        have h1 : matchAt [⟨"A", "B"⟩, ⟨"B", "A"⟩] (c :: cs) = none := by
          simp [matchAt, List.isPrefixOf, hA2, hB2]
        refine ⟨c :: next, ?_, ?_⟩
        · simp [substPass, h1, hnext]
        · cases hmem with
          | inl h => exact Or.inl (List.mem_cons_of_mem c h)
          | inr h => exact Or.inr (List.mem_cons_of_mem c h)

theorem substLoop_cyclic :
    ∀ (fuel : Nat) (l : List Char), ('A' ∈ l ∨ 'B' ∈ l) →
      substLoop [⟨"A", "B"⟩, ⟨"B", "A"⟩] fuel l = .error .cyclic := by
  intro fuel
  induction fuel with
  | zero =>
    intro l hl
    obtain ⟨next, hn, _⟩ := substPass_cyclic l hl
    simp [substLoop, hn]
  | succ f ih =>
    intro l hl
    obtain ⟨next, hn, hm⟩ := substPass_cyclic l hl
    simp [substLoop, hn, ih next hm]

/-- C9: reading a line through the token-substitution preprocessor
always terminates: the replacement set `A -> B` applied to `xAy` yields
`xBy`, and with the cyclic pair `A -> B`, `B -> A` any line containing
`A` makes the bounded loop report a `SubstitutionFailure` instead of
looping forever. -/
theorem token_substitution (l : String) :
    readLine [⟨"A", "B"⟩] "xAy" = .ok "xBy" ∧
    ('A' ∈ l.data → readLine [⟨"A", "B"⟩, ⟨"B", "A"⟩] l = .error .cyclic) := by
  constructor
  · rfl
  · intro hl
    show (substLoop _ maxPasses l.data).map String.mk = .error .cyclic
    rw [substLoop_cyclic maxPasses l.data (Or.inl hl)]
    rfl

theorem token_substitution_witness :
    'A' ∈ "wAz".data ∧
    readLine [⟨"A", "B"⟩, ⟨"B", "A"⟩] "wAz" = .error .cyclic :=
  ⟨by decide, (token_substitution "wAz").2 (by decide)⟩
